import Mathlib

/-!
Shallow embedding of the resilient Slack webhook delivery client
(`src/services/slack-client.ts`, `src/utils/validation.ts`, `cli.ts`)
and proofs about its validation, retry, backoff and construction behaviour.

Conventions of the embedding:
* JavaScript numbers that hold delays are modelled as rationals (`ℚ`);
  retry counts are modelled as integers (`ℤ`), matching the integral
  `maxRetries` of the data model.
* `String.prototype.includes` is modelled as list-infix containment on the
  character data.
* The platform pieces the client calls into are parameters:
  the WHATWG URL parser is an oracle (`Option ParsedUrl`), the `fetch`
  transport is a function from the attempt index to an outcome, and
  `Math.random` is a function from the attempt index to a rational draw.
* A thrown JavaScript value is either a structured `Error` (a name and a
  message) or some other value carried by its `String(...)` rendering.
-/

namespace Text2Slack

/-- Model of `String.prototype.includes`: the needle occurs as a contiguous
substring of the haystack. -/
def strIncludes (hay needle : String) : Bool :=
  decide (needle.data <:+: hay.data)

/-- Outcome of one of the pure validators in `src/utils/validation.ts`:
either success, or one of the two thrown error classes with its message. -/
inductive ValidationResult where
  | ok : ValidationResult
  | configError (msg : String) : ValidationResult
  | messageValidationError (msg : String) : ValidationResult
deriving DecidableEq, Repr

/-- The fields of a parsed WHATWG URL that `validateWebhookUrl` inspects.
The platform URL parser itself is passed in as an oracle. -/
structure ParsedUrl where
  protocol : String
  hostname : String
deriving DecidableEq, Repr

/-- `isLocalhostAddress` from `src/utils/validation.ts`. -/
def isLocalhostAddress (hostname : String) : Bool :=
  hostname == "localhost" || hostname == "127.0.0.1" ||
    hostname == "::1" || hostname == "[::1]"

/-- `validateWebhookUrl` from `src/utils/validation.ts`.  `parsed` is the
result of `new URL(url)`: `none` when the constructor throws. -/
def validateWebhookUrl (url : String) (parsed : Option ParsedUrl) :
    ValidationResult :=
  if url.isEmpty then .configError "Webhook URL is required"
  else
    match parsed with
    | none =>
        .configError
          "Webhook URL is not a valid URL. Expected format: https://hooks.example.com/..."
    | some parsedUrl =>
        if parsedUrl.protocol != "https:" then
          if parsedUrl.protocol == "http:" &&
              isLocalhostAddress parsedUrl.hostname then
            .ok
          else
            .configError "Webhook URL must use HTTPS for security. HTTP is not allowed."
        else .ok

/-- `DEFAULT_MAX_MESSAGE_LENGTH` from `src/utils/validation.ts`. -/
def DEFAULT_MAX_MESSAGE_LENGTH : ℕ := 4000

/-- `validateMessage` from `src/utils/validation.ts`. -/
def validateMessage (message : String)
    (maxLength : ℕ := DEFAULT_MAX_MESSAGE_LENGTH) : ValidationResult :=
  if message.isEmpty then
    .messageValidationError "Message must be a non-empty string"
  else if maxLength < message.length then
    .messageValidationError
      ("Message exceeds maximum length of " ++ toString maxLength ++
        " characters (got " ++ toString message.length ++ ")")
  else .ok

/-- `RetryConfig` from `src/services/slack-client.ts`.  Delays are rationals;
the retry count is integral per the data model. -/
structure RetryConfig where
  maxRetries : ℤ
  baseDelayMs : ℚ
  maxDelayMs : ℚ
deriving DecidableEq, Repr

/-- `DEFAULT_RETRY_CONFIG` from `src/services/slack-client.ts` (its initial,
unmutated value). -/
def DEFAULT_RETRY_CONFIG : RetryConfig :=
  { maxRetries := 3, baseDelayMs := 1000, maxDelayMs := 10000 }

/-- `DEFAULT_TIMEOUT_MS` from `src/services/slack-client.ts`. -/
def DEFAULT_TIMEOUT_MS : ℕ := 30000

/-- The `retry` member of `SlackClientOptions`: `false`, absent
(`undefined`), or a caller-supplied configuration. -/
inductive RetryArg where
  | disabled : RetryArg
  | unspecified : RetryArg
  | config (c : RetryConfig) : RetryArg
deriving DecidableEq, Repr

/-- `SlackClient.normalizeRetryConfig`.  `defaultConfig` is the value the
module-level `DEFAULT_RETRY_CONFIG` object holds at the moment of the call
(the source spreads a copy of it when `retry` is `undefined`). -/
def normalizeRetryConfig (retry : RetryArg) (defaultConfig : RetryConfig) :
    Option RetryConfig :=
  match retry with
  | .disabled => none
  | .unspecified => some
      { maxRetries := max 0 (min 10 defaultConfig.maxRetries),
        baseDelayMs := max 0 defaultConfig.baseDelayMs,
        maxDelayMs := max (max 0 defaultConfig.baseDelayMs) defaultConfig.maxDelayMs }
  | .config c => some
      { maxRetries := max 0 (min 10 c.maxRetries),
        baseDelayMs := max 0 c.baseDelayMs,
        maxDelayMs := max (max 0 c.baseDelayMs) c.maxDelayMs }

/-- A value thrown by JavaScript code: a structured `Error` (name and
message), or any other value carried by its `String(...)` rendering. -/
inductive Thrown where
  | error (name msg : String) : Thrown
  | nonError (stringRendering : String) : Thrown
deriving DecidableEq, Repr

/-- Outcome of one `fetch` call inside `doSendMessage`: an HTTP response
with its status, or a thrown value (an `AbortError` when the per-attempt
timeout fired, a `TypeError` mentioning fetch on connection failure, or
anything else). -/
inductive FetchOutcome where
  | response (status : ℕ) : FetchOutcome
  | thrown (e : Thrown) : FetchOutcome
deriving DecidableEq, Repr

/-- `SendMessageResult` from `src/services/slack-client.ts`. -/
structure SendMessageResult where
  success : Bool
  message : String
deriving DecidableEq, Repr

/-- `SlackClient.doSendMessage`: one HTTP attempt.  `response.ok` is a
status in [200, 300); a non-ok status throws the status error; a caught
`AbortError` is rewrapped as the timeout error; other thrown values
propagate unchanged. -/
def doSendMessage (message : String) (timeoutMs : ℕ)
    (outcome : FetchOutcome) : Except Thrown SendMessageResult :=
  match outcome with
  | .response status =>
      if 200 ≤ status ∧ status < 300 then
        .ok { success := true, message := message }
      else
        .error (.error "Error"
          ("Failed to send message to Slack. Status: " ++ toString status))
  | .thrown e =>
      match e with
      | .error name msg =>
          if name == "AbortError" then
            .error (.error "Error"
              ("Request to Slack timed out after " ++ toString timeoutMs ++ "ms"))
          else .error (.error name msg)
      | .nonError s => .error (.nonError s)

/-- The wrapping `error instanceof Error ? error : new Error(String(error))`
performed by `sendMessage` on every caught value. -/
def wrapThrown : Thrown → Thrown
  | .error name msg => .error name msg
  | .nonError s => .error "Error" s

/-- `SlackClient.isRetryableError`: string matching on the caught value's
name and message; any non-`Error` value is not retryable. -/
def isRetryableError : Thrown → Bool
  | .nonError _ => false
  | .error name msg =>
      (name == "TypeError" && strIncludes msg "fetch") ||
        strIncludes msg "Status: 5" ||
        strIncludes msg "timed out"

/-- `SlackClient.calculateBackoffDelay`: exponential backoff capped at
`maxDelayMs`, with jitter `0.5 + rand * 0.5` where `rand` is the
`Math.random()` draw for this attempt. -/
def calculateBackoffDelay (attempt : ℕ) (config : RetryConfig)
    (rand : ℚ) : ℤ :=
  ⌊min (config.baseDelayMs * 2 ^ attempt) config.maxDelayMs *
      (1 / 2 + rand * (1 / 2))⌋

/-- The state a constructed `SlackClient` instance holds. -/
structure SlackClientState where
  webhookUrl : String
  timeoutMs : ℕ
  retryConfig : Option RetryConfig
deriving DecidableEq, Repr

/-- The `SlackClient` constructor: throws when the webhook URL is falsy
(the only check it performs), otherwise stores the URL, the timeout and the
normalized retry configuration.  `defaultConfig` is the value of the
module-level `DEFAULT_RETRY_CONFIG` at construction time. -/
def construct (webhookUrl : String) (timeoutMsOpt : Option ℕ)
    (retry : RetryArg) (defaultConfig : RetryConfig) :
    Except Thrown SlackClientState :=
  if webhookUrl.isEmpty then
    .error (.error "Error" "Slack webhook URL is required")
  else
    .ok { webhookUrl := webhookUrl,
          timeoutMs := timeoutMsOpt.getD DEFAULT_TIMEOUT_MS,
          retryConfig := normalizeRetryConfig retry defaultConfig }

instance : DecidableEq (Except Thrown SendMessageResult)
  | .ok a, .ok b =>
      if h : a = b then .isTrue (by rw [h]) else .isFalse (by simp [h])
  | .ok _, .error _ => .isFalse (by simp)
  | .error _, .ok _ => .isFalse (by simp)
  | .error a, .error b =>
      if h : a = b then .isTrue (by rw [h]) else .isFalse (by simp [h])

/-- Observable trace of one `sendMessage` call: its result, the number of
outbound requests issued, and the backoff delays slept, in order. -/
structure SendTrace where
  result : Except Thrown SendMessageResult
  requests : ℕ
  sleeps : List ℤ
deriving DecidableEq, Repr

/-- The retry loop of `SlackClient.sendMessage`.  `attempt` is the 0-based
attempt index; `remaining` is how many attempts are still allowed including
the current one, so the source's `attempt === maxAttempts - 1` is
`remaining = 1`.  `transport` gives the fetch outcome of each attempt and
`rand` the `Math.random()` draw used for its backoff. -/
def sendLoop (retryConfig : Option RetryConfig) (timeoutMs : ℕ)
    (message : String) (transport : ℕ → FetchOutcome) (rand : ℕ → ℚ) :
    ℕ → ℕ → SendTrace
  | _, 0 =>
      { result := .error (.error "Error"
          "Unexpected: retry loop completed without result"),
        requests := 0, sleeps := [] }
  | attempt, remaining + 1 =>
      match doSendMessage message timeoutMs (transport attempt) with
      | .ok r => { result := .ok r, requests := 1, sleeps := [] }
      | .error e =>
          let wrappedError := wrapThrown e
          match retryConfig with
          | none => { result := .error wrappedError, requests := 1, sleeps := [] }
          | some config =>
              if isRetryableError e then
                if remaining = 0 then
                  { result := .error wrappedError, requests := 1, sleeps := [] }
                else
                  let delay := calculateBackoffDelay attempt config (rand attempt)
                  let rest := sendLoop retryConfig timeoutMs message transport
                    rand (attempt + 1) remaining
                  { result := rest.result, requests := rest.requests + 1,
                    sleeps := delay :: rest.sleeps }
              else
                { result := .error wrappedError, requests := 1, sleeps := [] }

/-- `SlackClient.sendMessage`: the empty-message guard, then the attempt
loop over `maxAttempts = 1` (retries disabled) or `maxRetries + 1`. -/
def sendMessage (client : SlackClientState) (message : String)
    (transport : ℕ → FetchOutcome) (rand : ℕ → ℚ) : SendTrace :=
  if message.isEmpty then
    { result := .error (.error "Error" "Message must be a non-empty string"),
      requests := 0, sleeps := [] }
  else
    let maxAttempts : ℕ :=
      match client.retryConfig with
      | none => 1
      | some config => (config.maxRetries + 1).toNat
    sendLoop client.retryConfig client.timeoutMs message transport rand 0
      maxAttempts

/-- Whether an attempt with this fetch outcome fails and is classified
retryable by `isRetryableError`. -/
def retryableFailure (timeoutMs : ℕ) (message : String)
    (o : FetchOutcome) : Bool :=
  match doSendMessage message timeoutMs o with
  | .ok _ => false
  | .error e => isRetryableError e

/-- The transient failure shapes named by the spec: a server-side 5xx
response, a timeout (the `AbortError` raised when the per-attempt timer
fires), or a connection failure (a `TypeError` mentioning fetch). -/
def TransientOutcome (o : FetchOutcome) : Prop :=
  (∃ s, o = .response s ∧ 500 ≤ s ∧ s ≤ 599) ∨
    (∃ m, o = .thrown (.error "AbortError" m)) ∨
    (∃ m, o = .thrown (.error "TypeError" m) ∧ strIncludes m "fetch" = true)

/-- A mutable store of `RetryConfig` objects, for the aliasing claims:
references are names, the heap maps each name to the object's current
field values. -/
def Heap : Type := ℕ → RetryConfig

/-- Mutating the object named `r` in the heap. -/
def heapUpdate (h : Heap) (r : ℕ) (c : RetryConfig) : Heap :=
  fun x => if x = r then c else h x

/-- The reference naming the module-level `DEFAULT_RETRY_CONFIG` object. -/
def defaultConfigRef : ℕ := 0

/-- The `retry` option as supplied by a caller in the heap model: `false`,
absent, or a reference to a shared configuration object. -/
inductive RetryArgRef where
  | disabled : RetryArgRef
  | unspecified : RetryArgRef
  | ref (r : ℕ) : RetryArgRef
deriving DecidableEq, Repr

/-- Reading the caller's `retry` option out of the heap: the constructor
dereferences the supplied object's fields at construction time. -/
def readRetryArg (h : Heap) : RetryArgRef → RetryArg
  | .disabled => .disabled
  | .unspecified => .unspecified
  | .ref r => .config (h r)

/-- The constructor in the heap model: it reads the referenced
configuration object's fields (and the current default) out of the heap at
construction time and stores the normalized copy as plain values — the
source's `normalizeRetryConfig` returns a fresh object literal and spreads
`DEFAULT_RETRY_CONFIG` into a fresh object. -/
def constructInHeap (h : Heap) (webhookUrl : String)
    (timeoutMsOpt : Option ℕ) (arg : RetryArgRef) :
    Except Thrown SlackClientState :=
  construct webhookUrl timeoutMsOpt (readRetryArg h arg) (h defaultConfigRef)

/-- A `sendMessage` call made while the heap is in state `hNow`.  The heap
argument is unused precisely because the client holds copied values rather
than a reference into the heap. -/
def sendMessageInHeap (client : SlackClientState) (_hNow : Heap)
    (message : String) (transport : ℕ → FetchOutcome) (rand : ℕ → ℚ) :
    SendTrace :=
  sendMessage client message transport rand

/-- The startup sequence of `cli.ts`: require the environment variable to
be set and non-empty, then construct the client directly — no call to
`validateWebhookUrl` is made. -/
def cliStartup (envWebhookUrl : Option String) :
    Except String SlackClientState :=
  match envWebhookUrl with
  | none => .error "Error: SLACK_WEBHOOK_URL environment variable is not set"
  | some url =>
      if url.isEmpty then
        .error "Error: SLACK_WEBHOOK_URL environment variable is not set"
      else
        match construct url none .unspecified DEFAULT_RETRY_CONFIG with
        | .ok client => .ok client
        | .error (.error _ m) => .error m
        | .error (.nonError s) => .error s

/-! ### Helper lemmas -/

/-- Occurrence of a needle in a string is preserved by appending on the
right. -/
lemma strIncludes_append_left (a b n : String)
    (h : strIncludes a n = true) : strIncludes (a ++ b) n = true := by
  simp only [strIncludes, decide_eq_true_eq] at h ⊢
  exact List.IsInfix.trans h (List.IsPrefix.isInfix (List.prefix_append _ _))

/-- A retryable error is an `Error` instance, so `sendMessage` wraps it to
itself. -/
lemma wrapThrown_eq_of_retryable (e : Thrown)
    (h : isRetryableError e = true) : wrapThrown e = e := by
  cases e with
  | error name msg => rfl
  | nonError s => simp [isRetryableError] at h

set_option maxRecDepth 8000 in
/-- The status text of every 5xx status contains `"Status: 5"`. -/
lemma status_text_includes_5 (k : Fin 100) :
    strIncludes
      ("Failed to send message to Slack. Status: " ++ toString (500 + (k : ℕ)))
      "Status: 5" = true := by
  revert k
  decide

/-- One attempt on a transient outcome fails with an `Error` that
`isRetryableError` classifies as retryable. -/
lemma transient_attempt_fails (tms : ℕ) (msg : String) (o : FetchOutcome)
    (h : TransientOutcome o) :
    ∃ e, doSendMessage msg tms o = .error e ∧ isRetryableError e = true := by
  rcases h with ⟨s, rfl, hs1, hs2⟩ | ⟨m, rfl⟩ | ⟨m, rfl, hm⟩
  · refine ⟨.error "Error"
      ("Failed to send message to Slack. Status: " ++ toString s), ?_, ?_⟩
    · have hcond : ¬ (200 ≤ s ∧ s < 300) := by omega
      simp [doSendMessage, hcond]
    · have h5 := status_text_includes_5 ⟨s - 500, by omega⟩
      have hrw : 500 + (s - 500) = s := by omega
      rw [hrw] at h5
      simp [isRetryableError, h5]
  · refine ⟨.error "Error"
      ("Request to Slack timed out after " ++ toString tms ++ "ms"), ?_, ?_⟩
    · simp [doSendMessage]
    · have h1 : strIncludes "Request to Slack timed out after " "timed out"
          = true := by decide
      have h2 := strIncludes_append_left _ (toString tms) _ h1
      have h3 := strIncludes_append_left _ "ms" _ h2
      simp [isRetryableError, h3]
  · refine ⟨.error "TypeError" m, ?_, ?_⟩
    · simp [doSendMessage]
    · simp [isRetryableError, hm]

/-- `retryableFailure` holds on every transient outcome. -/
lemma retryableFailure_of_transient (tms : ℕ) (msg : String)
    (o : FetchOutcome) (h : TransientOutcome o) :
    retryableFailure tms msg o = true := by
  obtain ⟨e, he, hr⟩ := transient_attempt_fails tms msg o h
  simp [retryableFailure, he, hr]

/-- A successful attempt ends the loop at once. -/
lemma sendLoop_ok_now (cfg : Option RetryConfig) (tms : ℕ) (msg : String)
    (transport : ℕ → FetchOutcome) (rand : ℕ → ℚ) (a r : ℕ)
    (v : SendMessageResult)
    (hd : doSendMessage msg tms (transport a) = .ok v) (hr : 1 ≤ r) :
    sendLoop cfg tms msg transport rand a r =
      { result := .ok v, requests := 1, sleeps := [] } := by
  cases r with
  | zero => omega
  | succ r => simp [sendLoop, hd]

/-- A non-retryable failure ends the loop at once with the wrapped error. -/
lemma sendLoop_fatal_now (c : RetryConfig) (tms : ℕ) (msg : String)
    (transport : ℕ → FetchOutcome) (rand : ℕ → ℚ) (a r : ℕ) (e : Thrown)
    (hd : doSendMessage msg tms (transport a) = .error e)
    (hf : isRetryableError e = false) (hr : 1 ≤ r) :
    sendLoop (some c) tms msg transport rand a r =
      { result := .error (wrapThrown e), requests := 1, sleeps := [] } := by
  cases r with
  | zero => omega
  | succ r => simp [sendLoop, hd, hf]

/-- With retries disabled, any failure ends the loop at once. -/
lemma sendLoop_disabled_fail (tms : ℕ) (msg : String)
    (transport : ℕ → FetchOutcome) (rand : ℕ → ℚ) (a r : ℕ) (e : Thrown)
    (hd : doSendMessage msg tms (transport a) = .error e) (hr : 1 ≤ r) :
    sendLoop none tms msg transport rand a r =
      { result := .error (wrapThrown e), requests := 1, sleeps := [] } := by
  cases r with
  | zero => omega
  | succ r => simp [sendLoop, hd]

/-- A retryable failure on the last allowed attempt ends the loop with that
error. -/
lemma sendLoop_retryable_last (c : RetryConfig) (tms : ℕ) (msg : String)
    (transport : ℕ → FetchOutcome) (rand : ℕ → ℚ) (a : ℕ) (e : Thrown)
    (hd : doSendMessage msg tms (transport a) = .error e)
    (he : isRetryableError e = true) :
    sendLoop (some c) tms msg transport rand a 1 =
      { result := .error e, requests := 1, sleeps := [] } := by
  simp [sendLoop, hd, he, wrapThrown_eq_of_retryable e he]

/-- Running the loop across `k` retryable failures accumulates `k` extra
requests and the `k` backoff sleeps, then continues from attempt `a + k`. -/
lemma sendLoop_skip (c : RetryConfig) (tms : ℕ) (msg : String)
    (transport : ℕ → FetchOutcome) (rand : ℕ → ℚ) (k : ℕ) :
    ∀ (a r : ℕ), 1 ≤ r →
      (∀ i, i < k → retryableFailure tms msg (transport (a + i)) = true) →
      sendLoop (some c) tms msg transport rand a (k + r) =
        { result := (sendLoop (some c) tms msg transport rand (a + k) r).result,
          requests :=
            (sendLoop (some c) tms msg transport rand (a + k) r).requests + k,
          sleeps :=
            ((List.range k).map
                (fun i => calculateBackoffDelay (a + i) c (rand (a + i)))) ++
              (sendLoop (some c) tms msg transport rand (a + k) r).sleeps } := by
  induction k with
  | zero =>
      intro a r hr hfail
      simp
  | succ k ih =>
      intro a r hr hfail
      have h0 : retryableFailure tms msg (transport a) = true := by
        have := hfail 0 (by omega)
        simpa using this
      cases hd : doSendMessage msg tms (transport a) with
      | ok v => simp [retryableFailure, hd] at h0
      | error e =>
          have h0' : isRetryableError e = true := by
            simpa [retryableFailure, hd] using h0
          have hstep : k + 1 + r = (k + r) + 1 := by omega
          rw [hstep]
          have hkr : ¬ (k + r = 0) := by omega
          have ihx := ih (a + 1) r hr (fun i hi => by
            have := hfail (i + 1) (by omega)
            have hshift : a + (i + 1) = a + 1 + i := by omega
            rwa [hshift] at this)
          have hmap : (List.range (k + 1)).map
                (fun i => calculateBackoffDelay (a + i) c (rand (a + i))) =
              calculateBackoffDelay a c (rand a) ::
                (List.range k).map
                  (fun i => calculateBackoffDelay (a + 1 + i) c (rand (a + 1 + i))) := by
            rw [List.range_succ_eq_map, List.map_cons, List.map_map]
            refine congrArg₂ _ (by simp) ?_
            refine List.map_congr_left (fun i _ => ?_)
            have h1i : a + Nat.succ i = a + 1 + i := by omega
            simp [Function.comp, h1i]
          have haddk : a + (k + 1) = a + 1 + k := by omega
          simp only [sendLoop, hd, h0', if_true, if_neg hkr, ihx, haddk, hmap]
          simp [SendTrace.mk.injEq, Nat.add_assoc]

/-- The loop issues at least one request whenever at least one attempt is
allowed. -/
lemma sendLoop_requests_pos (cfg : Option RetryConfig) (tms : ℕ)
    (msg : String) (transport : ℕ → FetchOutcome) (rand : ℕ → ℚ)
    (a r : ℕ) (hr : 1 ≤ r) :
    1 ≤ (sendLoop cfg tms msg transport rand a r).requests := by
  cases r with
  | zero => omega
  | succ r =>
      rw [sendLoop]
      cases hd : doSendMessage msg tms (transport a) with
      | ok v => simp
      | error e =>
          cases cfg with
          | none => simp
          | some c =>
              by_cases hret : isRetryableError e
              · by_cases hrem : r = 0
                · simp [hret, hrem]
                · simp [hret, hrem]
              · simp [hret]

/-- Unfolding `sendMessage` for a non-empty message. -/
lemma sendMessage_eq_loop (client : SlackClientState) (msg : String)
    (hmsg : msg.isEmpty = false) (transport : ℕ → FetchOutcome)
    (rand : ℕ → ℚ) :
    sendMessage client msg transport rand =
      sendLoop client.retryConfig client.timeoutMs msg transport rand 0
        (match client.retryConfig with
          | none => 1
          | some config => (config.maxRetries + 1).toNat) := by
  simp [sendMessage, hmsg]

/-- Unfolding `sendMessage` for a non-empty message and an enabled retry
configuration. -/
lemma sendMessage_eq_loop_some (url : String) (tms : ℕ) (c : RetryConfig)
    (msg : String) (hmsg : msg.isEmpty = false)
    (transport : ℕ → FetchOutcome) (rand : ℕ → ℚ) :
    sendMessage ⟨url, tms, some c⟩ msg transport rand =
      sendLoop (some c) tms msg transport rand 0
        ((c.maxRetries + 1).toNat) := by
  simp [sendMessage, hmsg]

/-- Unfolding `sendMessage` for a non-empty message with retries
disabled. -/
lemma sendMessage_eq_loop_none (url : String) (tms : ℕ) (msg : String)
    (hmsg : msg.isEmpty = false) (transport : ℕ → FetchOutcome)
    (rand : ℕ → ℚ) :
    sendMessage ⟨url, tms, none⟩ msg transport rand =
      sendLoop none tms msg transport rand 0 1 := by
  simp [sendMessage, hmsg]

/-! ### Claim C1 -/

/-- C1 (counterexample): a 4001-character message exceeds the default
maximum of 4000 and `validateMessage` rejects it, yet `sendMessage` never
consults the Validator: the call issues one outbound request and succeeds
instead of failing with a `MessageValidationError` and zero requests. -/
theorem sendMessage_overlength_counterexample :
    DEFAULT_MAX_MESSAGE_LENGTH <
        (String.mk (List.replicate 4001 'a')).length ∧
    validateMessage (String.mk (List.replicate 4001 'a'))
        DEFAULT_MAX_MESSAGE_LENGTH ≠ .ok ∧
    sendMessage
        ⟨"https://hooks.example.com/x", 30000, some DEFAULT_RETRY_CONFIG⟩
        (String.mk (List.replicate 4001 'a'))
        (fun _ => .response 200) (fun _ => 0) =
      { result := .ok ⟨true, String.mk (List.replicate 4001 'a')⟩,
        requests := 1, sleeps := [] } := by
  have hlen : (String.mk (List.replicate 4001 'a')).length = 4001 := by
    have h1 : (String.mk (List.replicate 4001 'a')).length =
        (List.replicate 4001 'a').length := rfl
    rw [h1, List.length_replicate]
  have hne : String.mk (List.replicate 4001 'a') ≠ "" := by
    intro hcontra
    have hdata := congrArg String.data hcontra
    have h4001 := congrArg List.length hdata
    rw [List.length_replicate] at h4001
    exact absurd h4001 (by decide)
  have hmsg : (String.mk (List.replicate 4001 'a')).isEmpty = false := by
    rw [Bool.eq_false_iff, Ne, String.isEmpty_iff]
    exact hne
  refine ⟨by rw [hlen]; norm_num [DEFAULT_MAX_MESSAGE_LENGTH], ?_, ?_⟩
  · rw [validateMessage, if_neg (by rw [hmsg]; simp), if_pos (by
      rw [hlen]; norm_num [DEFAULT_MAX_MESSAGE_LENGTH])]
    intro hcontra
    exact ValidationResult.noConfusion hcontra
  · rw [sendMessage_eq_loop_some _ _ _ _ hmsg]
    exact sendLoop_ok_now _ _ _ _ _ 0 _ _ rfl (by decide)

/-- C1 (amended): `sendMessage` performs only the inline empty-message
check — it fails before any outbound request (zero requests, no sleeps,
no retry budget) if and only if the text is empty, and the failure is a
plain `Error`, not a `MessageValidationError`; the Validator's length
limit is not enforced on the send path. -/
theorem sendMessage_rejects_exactly_empty (client : SlackClientState)
    (msg : String) (transport : ℕ → FetchOutcome) (rand : ℕ → ℚ) :
    sendMessage client msg transport rand =
      { result := .error (.error "Error" "Message must be a non-empty string"),
        requests := 0, sleeps := [] } ↔ msg.isEmpty = true := by
  by_cases hm : msg.isEmpty
  · simp [sendMessage, hm]
  · have hm' : msg.isEmpty = false := by simpa using hm
    have hne : ∀ (mA : ℕ),
        sendLoop client.retryConfig client.timeoutMs msg transport rand 0 mA ≠
          { result := .error (.error "Error" "Message must be a non-empty string"),
            requests := 0, sleeps := [] } := by
      intro mA
      cases mA with
      | zero =>
          intro heq
          have hzero : sendLoop client.retryConfig client.timeoutMs msg
              transport rand 0 0 =
              { result := .error (.error "Error"
                  "Unexpected: retry loop completed without result"),
                requests := 0, sleeps := [] } := rfl
          rw [hzero] at heq
          have hmsgeq : ("Unexpected: retry loop completed without result" :
              String) = "Message must be a non-empty string" := by
            have h1 := congrArg SendTrace.result heq
            simp at h1
          exact absurd hmsgeq (by decide)
      | succ n =>
          intro heq
          have hpos := sendLoop_requests_pos client.retryConfig
            client.timeoutMs msg transport rand 0 (n + 1) (by omega)
          rw [heq] at hpos
          simp at hpos
    rw [sendMessage_eq_loop client msg hm' transport rand]
    simp only [hm', Bool.false_eq_true, iff_false]
    exact hne _

/-! ### Claim C2 -/

/-- C2: with a normalized budget of `n` retries and every attempt failing
transiently (5xx, timeout, or connection failure), `sendMessage` issues
exactly `n + 1` outbound requests, sleeps the computed backoff delay
between consecutive attempts, and propagates the final transient failure. -/
theorem sendMessage_retryable_exhaustion (url : String) (tms : ℕ)
    (msg : String) (hmsg : msg.isEmpty = false) (n : ℕ) (c : RetryConfig)
    (hn : c.maxRetries = (n : ℤ)) (transport : ℕ → FetchOutcome)
    (rand : ℕ → ℚ)
    (hfail : ∀ i, i ≤ n → TransientOutcome (transport i)) :
    ∃ e, doSendMessage msg tms (transport n) = .error e ∧
      isRetryableError e = true ∧
      sendMessage ⟨url, tms, some c⟩ msg transport rand =
        { result := .error e, requests := n + 1,
          sleeps := (List.range n).map
            (fun i => calculateBackoffDelay i c (rand i)) } := by
  obtain ⟨e, he, hr⟩ :=
    transient_attempt_fails tms msg (transport n) (hfail n le_rfl)
  refine ⟨e, he, hr, ?_⟩
  have hmA : (c.maxRetries + 1).toNat = n + 1 := by omega
  rw [sendMessage_eq_loop_some _ _ _ _ hmsg]
  simp only [hmA]
  have hskip := sendLoop_skip c tms msg transport rand n 0 1 (by omega)
    (fun i hi => by
      have hx := retryableFailure_of_transient tms msg (transport i)
        (hfail i (by omega))
      simpa using hx)
  simp only [Nat.zero_add] at hskip
  have hlast := sendLoop_retryable_last c tms msg transport rand n e he hr
  rw [hskip, hlast]
  simp [Nat.add_comm]

/-- C2 (witness): budget of 2 retries against a destination always
returning status 500 gives 3 requests, 2 sleeps, and the final 500 error. -/
theorem sendMessage_retryable_exhaustion_witness :
    ("hi" : String).isEmpty = false ∧
    (∃ e, doSendMessage "hi" 30000
          ((fun _ => FetchOutcome.response 500) 2) = .error e ∧
      isRetryableError e = true ∧
      sendMessage ⟨"https://hooks.example.com/x", 30000, some ⟨2, 1000, 10000⟩⟩ "hi"
          (fun _ => .response 500) (fun _ => 0) =
        { result := .error e, requests := 2 + 1,
          sleeps := (List.range 2).map
            (fun i => calculateBackoffDelay i ⟨2, 1000, 10000⟩
              ((fun _ => (0 : ℚ)) i)) }) :=
  ⟨by decide,
    sendMessage_retryable_exhaustion "https://hooks.example.com/x" 30000
      "hi" (by decide) 2 ⟨2, 1000, 10000⟩ (by decide)
      (fun _ => .response 500) (fun _ => 0)
      (fun i _ => Or.inl ⟨500, rfl, by omega, by omega⟩)⟩

/-! ### Claim C3 -/

/-- C3: a non-retryable first failure (for any retry budget), or any first
failure with retries disabled, is propagated after exactly one outbound
request with no backoff sleep. -/
theorem sendMessage_fatal_or_disabled_single_attempt (url : String)
    (tms : ℕ) (msg : String) (hmsg : msg.isEmpty = false)
    (transport : ℕ → FetchOutcome) (rand : ℕ → ℚ) (e : Thrown)
    (h0 : doSendMessage msg tms (transport 0) = .error e) :
    (∀ c : RetryConfig, 0 ≤ c.maxRetries → isRetryableError e = false →
        sendMessage ⟨url, tms, some c⟩ msg transport rand =
          { result := .error (wrapThrown e), requests := 1, sleeps := [] }) ∧
    sendMessage ⟨url, tms, none⟩ msg transport rand =
      { result := .error (wrapThrown e), requests := 1, sleeps := [] } := by
  constructor
  · intro c hc hf
    rw [sendMessage_eq_loop_some _ _ _ _ hmsg]
    exact sendLoop_fatal_now c tms msg transport rand 0 _ e h0 hf (by omega)
  · rw [sendMessage_eq_loop_none _ _ _ hmsg]
    exact sendLoop_disabled_fail tms msg transport rand 0 1 e h0 (by omega)

/-- C3 (witness): a 400 response fails after exactly one request, both with
a budget of 3 retries and with retries disabled. -/
theorem sendMessage_fatal_or_disabled_single_attempt_witness :
    ("hi" : String).isEmpty = false ∧
    doSendMessage "hi" 30000 ((fun _ => FetchOutcome.response 400) 0) =
      .error (.error "Error"
        "Failed to send message to Slack. Status: 400") ∧
    (0 : ℤ) ≤ (3 : ℤ) ∧
    isRetryableError (.error "Error"
        "Failed to send message to Slack. Status: 400") = false ∧
    sendMessage ⟨"https://hooks.example.com/x", 30000, some ⟨3, 1000, 10000⟩⟩ "hi"
        (fun _ => .response 400) (fun _ => 0) =
      { result := .error (wrapThrown (.error "Error"
          "Failed to send message to Slack. Status: 400")),
        requests := 1, sleeps := [] } ∧
    sendMessage ⟨"https://hooks.example.com/x", 30000, none⟩ "hi"
        (fun _ => .response 400) (fun _ => 0) =
      { result := .error (wrapThrown (.error "Error"
          "Failed to send message to Slack. Status: 400")),
        requests := 1, sleeps := [] } := by
  have h := sendMessage_fatal_or_disabled_single_attempt
    "https://hooks.example.com/x" 30000 "hi" (by decide)
    (fun _ => .response 400) (fun _ => 0)
    (.error "Error" "Failed to send message to Slack. Status: 400")
    (by decide)
  exact ⟨by decide, by decide, by decide, by decide,
    h.1 ⟨3, 1000, 10000⟩ (by decide) (by decide), h.2⟩

/-! ### Claim C7 -/

/-- C7: a valid message accepted by the destination on the first attempt
(2xx) returns `{success := true, message := text}` after exactly one
outbound request with no backoff sleep, for any normalized retry option. -/
theorem sendMessage_first_attempt_success (url : String) (tms : ℕ)
    (msg : String) (hmsg : msg.isEmpty = false)
    (_hlen : msg.length ≤ DEFAULT_MAX_MESSAGE_LENGTH)
    (ropt : Option RetryConfig)
    (hnorm : ∀ c, ropt = some c → 0 ≤ c.maxRetries)
    (transport : ℕ → FetchOutcome) (rand : ℕ → ℚ) (s : ℕ)
    (h2xx : transport 0 = .response s) (hs1 : 200 ≤ s) (hs2 : s < 300) :
    sendMessage ⟨url, tms, ropt⟩ msg transport rand =
      { result := .ok { success := true, message := msg },
        requests := 1, sleeps := [] } := by
  have hok : doSendMessage msg tms (transport 0) =
      .ok { success := true, message := msg } := by
    rw [h2xx]
    simp [doSendMessage, hs1, hs2]
  cases ropt with
  | none =>
      rw [sendMessage_eq_loop_none _ _ _ hmsg]
      exact sendLoop_ok_now none tms msg transport rand 0 1 _ hok (by omega)
  | some c =>
      have hc := hnorm c rfl
      rw [sendMessage_eq_loop_some _ _ _ _ hmsg]
      exact sendLoop_ok_now (some c) tms msg transport rand 0 _ _ hok
        (by omega)

/-- C7 (witness): `sendMessage "hi"` against an accepting destination with
the default retry configuration. -/
theorem sendMessage_first_attempt_success_witness :
    ("hi" : String).isEmpty = false ∧
    ("hi" : String).length ≤ DEFAULT_MAX_MESSAGE_LENGTH ∧
    sendMessage ⟨"https://hooks.example.com/x", 30000, some DEFAULT_RETRY_CONFIG⟩ "hi"
        (fun _ => .response 200) (fun _ => 0) =
      { result := .ok { success := true, message := "hi" },
        requests := 1, sleeps := [] } :=
  ⟨by decide, by decide,
    sendMessage_first_attempt_success "https://hooks.example.com/x" 30000
      "hi" (by decide) (by decide) (some DEFAULT_RETRY_CONFIG)
      (fun c hc => by
        injection hc with hinj
        rw [← hinj]
        decide)
      (fun _ => .response 200) (fun _ => 0) 200 rfl (by omega) (by omega)⟩

/-! ### Claim C8 -/

/-- C8: a non-`Error` thrown value (plain string or object) is classified
non-retryable, wrapped into a generic `Error` carrying its string
rendering, and propagated on the attempt where it occurred — regardless of
the retry budget still remaining. -/
theorem sendMessage_unrecognized_thrown_immediate (url : String) (tms : ℕ)
    (msg : String) (hmsg : msg.isEmpty = false) (n : ℕ) (c : RetryConfig)
    (hn : c.maxRetries = (n : ℤ)) (transport : ℕ → FetchOutcome)
    (rand : ℕ → ℚ) (k : ℕ) (hk : k ≤ n) (s : String)
    (hprev : ∀ i, i < k → TransientOutcome (transport i))
    (hthrow : transport k = .thrown (.nonError s)) :
    isRetryableError (.nonError s) = false ∧
    sendMessage ⟨url, tms, some c⟩ msg transport rand =
      { result := .error (.error "Error" s), requests := k + 1,
        sleeps := (List.range k).map
          (fun i => calculateBackoffDelay i c (rand i)) } := by
  refine ⟨rfl, ?_⟩
  have hd : doSendMessage msg tms (transport k) = .error (.nonError s) := by
    rw [hthrow]
    rfl
  have hmA : (c.maxRetries + 1).toNat = n + 1 := by omega
  rw [sendMessage_eq_loop_some _ _ _ _ hmsg]
  simp only [hmA]
  have hfatal := sendLoop_fatal_now c tms msg transport rand k (n + 1 - k)
    (.nonError s) hd rfl (by omega)
  have hskip := sendLoop_skip c tms msg transport rand k 0 (n + 1 - k)
    (by omega)
    (fun i hi => by
      have hx := retryableFailure_of_transient tms msg (transport i)
        (hprev i hi)
      simpa using hx)
  simp only [Nat.zero_add] at hskip
  have hsum : k + (n + 1 - k) = n + 1 := by omega
  rw [hsum] at hskip
  rw [hskip, hfatal]
  simp [wrapThrown, Nat.add_comm]

/-- C8 (witness): a plain-string throw on the second attempt (after one
transient failure) with 3 retries still available stops immediately: 2
requests, 1 sleep, generic error. -/
theorem sendMessage_unrecognized_thrown_immediate_witness :
    ("hi" : String).isEmpty = false ∧
    isRetryableError (.nonError "boom") = false ∧
    sendMessage ⟨"https://hooks.example.com/x", 30000, some ⟨4, 1000, 10000⟩⟩ "hi"
        (fun i => if i = 0 then .response 503 else .thrown (.nonError "boom"))
        (fun _ => 0) =
      { result := .error (.error "Error" "boom"), requests := 1 + 1,
        sleeps := (List.range 1).map
          (fun i => calculateBackoffDelay i ⟨4, 1000, 10000⟩
            ((fun _ => (0 : ℚ)) i)) } := by
  have h := sendMessage_unrecognized_thrown_immediate
    "https://hooks.example.com/x" 30000 "hi" (by decide) 4
    ⟨4, 1000, 10000⟩ (by decide)
    (fun i => if i = 0 then .response 503 else .thrown (.nonError "boom"))
    (fun _ => 0) 1 (by omega) "boom"
    (fun i hi => by
      have hi0 : i = 0 := by omega
      subst hi0
      exact Or.inl ⟨503, rfl, by omega, by omega⟩)
    rfl
  exact ⟨by decide, h.1, h.2⟩

/-! ### Claim C9 -/

/-- C9: the client's effective retry policy is the normalized copy of the
configuration values read at construction time; mutating the shared
configuration object (or the shared default) afterwards does not change
the behaviour of any later `sendMessage` call on the already-constructed
client. -/
theorem retryConfig_copy_immune_to_mutation (h : Heap) (r : ℕ)
    (c' : RetryConfig) (url : String) (tmsOpt : Option ℕ)
    (arg : RetryArgRef) (client : SlackClientState)
    (hc : constructInHeap h url tmsOpt arg = .ok client)
    (msg : String) (transport : ℕ → FetchOutcome) (rand : ℕ → ℚ) :
    client.retryConfig =
      normalizeRetryConfig (readRetryArg h arg) (h defaultConfigRef) ∧
    sendMessageInHeap client (heapUpdate h r c') msg transport rand =
      sendMessageInHeap client h msg transport rand := by
  refine ⟨?_, rfl⟩
  rw [constructInHeap, construct] at hc
  by_cases hurl : url.isEmpty
  · rw [if_pos hurl] at hc
    exact absurd hc (by simp)
  · rw [if_neg hurl] at hc
    simp only [Except.ok.injEq] at hc
    rw [← hc]

/-- C9 (witness): a client constructed from a shared configuration object
keeps its normalized copy after that object (here also the default) is
mutated. -/
theorem retryConfig_copy_immune_to_mutation_witness :
    ({ webhookUrl := "https://hooks.example.com/x",
        timeoutMs := DEFAULT_TIMEOUT_MS,
        retryConfig := normalizeRetryConfig (.config DEFAULT_RETRY_CONFIG)
          DEFAULT_RETRY_CONFIG } : SlackClientState).retryConfig =
      normalizeRetryConfig
        (readRetryArg (fun _ => DEFAULT_RETRY_CONFIG) (.ref 1))
        ((fun _ => DEFAULT_RETRY_CONFIG) defaultConfigRef) ∧
    sendMessageInHeap
        { webhookUrl := "https://hooks.example.com/x",
          timeoutMs := DEFAULT_TIMEOUT_MS,
          retryConfig := normalizeRetryConfig (.config DEFAULT_RETRY_CONFIG)
            DEFAULT_RETRY_CONFIG }
        (heapUpdate (fun _ => DEFAULT_RETRY_CONFIG) 1 ⟨5, 1, 2⟩) "hi"
        (fun _ => .response 200) (fun _ => 0) =
      sendMessageInHeap
        { webhookUrl := "https://hooks.example.com/x",
          timeoutMs := DEFAULT_TIMEOUT_MS,
          retryConfig := normalizeRetryConfig (.config DEFAULT_RETRY_CONFIG)
            DEFAULT_RETRY_CONFIG }
        (fun _ => DEFAULT_RETRY_CONFIG) "hi"
        (fun _ => .response 200) (fun _ => 0) :=
  retryConfig_copy_immune_to_mutation (fun _ => DEFAULT_RETRY_CONFIG) 1
    ⟨5, 1, 2⟩ "https://hooks.example.com/x" none (.ref 1) _ rfl "hi"
    (fun _ => .response 200) (fun _ => 0)

/-! ### Claim C4 -/

/-- C4 (counterexample): `ftp://localhost/path` has a loopback host and an
insecure scheme, yet `validateWebhookUrl` fails with a `ConfigError` —
refuting the claim that every insecure scheme is tolerated on loopback. -/
theorem validateWebhookUrl_loopback_scheme_counterexample :
    isLocalhostAddress "localhost" = true ∧
    ("ftp://localhost/path" : String).isEmpty = false ∧
    validateWebhookUrl "ftp://localhost/path" (some ⟨"ftp:", "localhost"⟩) =
      .configError
        "Webhook URL must use HTTPS for security. HTTP is not allowed." := by
  refine ⟨by decide, by decide, by decide⟩

/-- C4 (amended): `validateWebhookUrl` succeeds exactly when the URL is
non-empty, parses, and either uses the secure scheme `https:` or uses
specifically `http:` with a loopback host; every other scheme fails with a
`ConfigError` even on a loopback host. -/
theorem validateWebhookUrl_ok_iff (url : String) (parsed : Option ParsedUrl) :
    validateWebhookUrl url parsed = .ok ↔
      (url.isEmpty = false ∧ ∃ p, parsed = some p ∧
        (p.protocol = "https:" ∨
          (p.protocol = "http:" ∧ isLocalhostAddress p.hostname = true))) := by
  rcases parsed with _ | p
  · by_cases hurl : url.isEmpty <;> simp [validateWebhookUrl, hurl]
  · by_cases hurl : url.isEmpty
    · simp [validateWebhookUrl, hurl]
    · by_cases hp : p.protocol = "https:"
      · simp [validateWebhookUrl, hurl, hp]
      · by_cases hq : p.protocol = "http:"
        · by_cases hloc : isLocalhostAddress p.hostname
          · simp [validateWebhookUrl, hurl, hp, hq, hloc]
          · simp [validateWebhookUrl, hurl, hp, hq, hloc]
        · simp [validateWebhookUrl, hurl, hp, hq]

/-! ### Claim C5 -/

/-- C5 (counterexample): with the normalized configuration base=1, max=10,
at attempt 0 with jitter draw u = 1/2 (`Math.random()` returning 0), the
computed delay is `⌊1 * (1/2)⌋ = 0`, strictly below the claimed lower bound
`0.5 * min(base * 2^0, max) = 1/2`. -/
theorem calculateBackoffDelay_lower_bound_counterexample :
    ((1 : ℚ)/2 ≤ 1/2 ∧ (1/2 : ℚ) ≤ 1) ∧
    calculateBackoffDelay 0 ⟨3, 1, 10⟩ (2 * (1/2) - 1) = 0 ∧
    ¬ ((1/2 : ℚ) * min ((1 : ℚ) * 2 ^ 0) 10 ≤
        (calculateBackoffDelay 0 ⟨3, 1, 10⟩ (2 * (1/2) - 1) : ℚ)) := by
  refine ⟨⟨by norm_num, by norm_num⟩, ?_, ?_⟩ <;>
    norm_num [calculateBackoffDelay]

/-- C5 (amended): for every normalized (base, max), attempt index, and
jitter draw u in [0.5, 1], `calculateBackoffDelay` equals
`⌊min(base * 2^attempt, max) * u⌋` and lies in the interval
`[⌊0.5 * min(base * 2^attempt, max)⌋, min(base * 2^attempt, max)]` — the
floor can undershoot the claimed lower bound `0.5 * capped` by less than
one. -/
theorem calculateBackoffDelay_eq_and_bounds (c : RetryConfig)
    (attempt : ℕ) (u : ℚ)
    (hbase : 0 ≤ c.baseDelayMs) (hmax : c.baseDelayMs ≤ c.maxDelayMs)
    (hu1 : 1/2 ≤ u) (hu2 : u ≤ 1) :
    calculateBackoffDelay attempt c (2 * u - 1) =
      ⌊min (c.baseDelayMs * 2 ^ attempt) c.maxDelayMs * u⌋ ∧
    ⌊(1/2 : ℚ) * min (c.baseDelayMs * 2 ^ attempt) c.maxDelayMs⌋ ≤
      calculateBackoffDelay attempt c (2 * u - 1) ∧
    (calculateBackoffDelay attempt c (2 * u - 1) : ℚ) ≤
      min (c.baseDelayMs * 2 ^ attempt) c.maxDelayMs := by
  have hcap : 0 ≤ min (c.baseDelayMs * 2 ^ attempt) c.maxDelayMs :=
    le_min (mul_nonneg hbase (by positivity)) (le_trans hbase hmax)
  have heq : calculateBackoffDelay attempt c (2 * u - 1) =
      ⌊min (c.baseDelayMs * 2 ^ attempt) c.maxDelayMs * u⌋ := by
    unfold calculateBackoffDelay
    exact congrArg Int.floor (by ring)
  refine ⟨heq, ?_, ?_⟩
  · rw [heq]
    refine Int.floor_le_floor ?_
    calc (1/2 : ℚ) * min (c.baseDelayMs * 2 ^ attempt) c.maxDelayMs
        = min (c.baseDelayMs * 2 ^ attempt) c.maxDelayMs * (1/2) := by ring
      _ ≤ min (c.baseDelayMs * 2 ^ attempt) c.maxDelayMs * u :=
          mul_le_mul_of_nonneg_left hu1 hcap
  · rw [heq]
    calc ((⌊min (c.baseDelayMs * 2 ^ attempt) c.maxDelayMs * u⌋ : ℤ) : ℚ)
        ≤ min (c.baseDelayMs * 2 ^ attempt) c.maxDelayMs * u := Int.floor_le _
      _ ≤ min (c.baseDelayMs * 2 ^ attempt) c.maxDelayMs :=
          mul_le_of_le_one_right hcap hu2

/-- C5 (witness): the amended bounds instantiated at base=1000, max=10000,
attempt 0, u = 3/4. -/
theorem calculateBackoffDelay_eq_and_bounds_witness :
    ((0 : ℚ) ≤ (1000 : ℚ) ∧ (1000 : ℚ) ≤ (10000 : ℚ) ∧
      (1/2 : ℚ) ≤ 3/4 ∧ (3/4 : ℚ) ≤ 1) ∧
    (calculateBackoffDelay 0 ⟨3, 1000, 10000⟩ (2 * (3/4) - 1) =
        ⌊min ((1000 : ℚ) * 2 ^ 0) 10000 * (3/4)⌋ ∧
      ⌊(1/2 : ℚ) * min ((1000 : ℚ) * 2 ^ 0) 10000⌋ ≤
        calculateBackoffDelay 0 ⟨3, 1000, 10000⟩ (2 * (3/4) - 1) ∧
      (calculateBackoffDelay 0 ⟨3, 1000, 10000⟩ (2 * (3/4) - 1) : ℚ) ≤
        min ((1000 : ℚ) * 2 ^ 0) 10000) :=
  ⟨⟨by norm_num, by norm_num, by norm_num, by norm_num⟩,
    calculateBackoffDelay_eq_and_bounds ⟨3, 1000, 10000⟩ 0 (3/4)
      (by norm_num) (by norm_num) (by norm_num) (by norm_num)⟩

/-! ### Claim C6 -/

/-- C6: for every caller-supplied configuration (not the disabled
sentinel), the value normalized at construction satisfies
`maxRetries ∈ [0, 10]`, `baseDelayMs ≥ 0`, `maxDelayMs ≥ baseDelayMs`,
with out-of-range `maxRetries` clamped into the range and a too-small
`maxDelayMs` raised to `baseDelayMs`. -/
theorem normalizeRetryConfig_clamps (c d : RetryConfig) :
    ∃ c', normalizeRetryConfig (.config c) d = some c' ∧
      c'.maxRetries = max 0 (min 10 c.maxRetries) ∧
      c'.baseDelayMs = max 0 c.baseDelayMs ∧
      c'.maxDelayMs = max (max 0 c.baseDelayMs) c.maxDelayMs ∧
      0 ≤ c'.maxRetries ∧ c'.maxRetries ≤ 10 ∧
      0 ≤ c'.baseDelayMs ∧ c'.baseDelayMs ≤ c'.maxDelayMs := by
  refine ⟨_, rfl, rfl, rfl, rfl, ?_, ?_, ?_, ?_⟩
  · exact le_max_left 0 _
  · exact max_le (by norm_num) (min_le_left _ _)
  · exact le_max_left 0 _
  · exact le_max_left _ _

/-! ### Claim C10 -/

/-- C10: the `SlackClient` constructor throws a plain `Error` exactly on an
empty webhook URL, and accepts every non-empty string without the
destination policy check — in particular both the constructor and the
`cli.ts` startup accept an insecure non-loopback URL and an unparsable URL
that `validateWebhookUrl` would reject. -/
theorem constructor_skips_policy_check :
    (∀ (tmsOpt : Option ℕ) (retry : RetryArg) (d : RetryConfig),
        construct "" tmsOpt retry d =
          .error (.error "Error" "Slack webhook URL is required")) ∧
    (∀ (url : String) (tmsOpt : Option ℕ) (retry : RetryArg)
        (d : RetryConfig), url.isEmpty = false →
        construct url tmsOpt retry d =
          .ok { webhookUrl := url,
                timeoutMs := tmsOpt.getD DEFAULT_TIMEOUT_MS,
                retryConfig := normalizeRetryConfig retry d }) ∧
    (validateWebhookUrl "http://example.com/hook"
        (some ⟨"http:", "example.com"⟩) ≠ .ok ∧
      ∃ client, cliStartup (some "http://example.com/hook") = .ok client ∧
        client.webhookUrl = "http://example.com/hook") ∧
    (validateWebhookUrl "not-a-url" none ≠ .ok ∧
      ∃ client, cliStartup (some "not-a-url") = .ok client ∧
        client.webhookUrl = "not-a-url") := by
  refine ⟨?_, ?_, ⟨by decide, ?_⟩, ⟨by decide, ?_⟩⟩
  · intro tmsOpt retry d
    have hempty : ("" : String).isEmpty = true := by decide
    simp [construct, hempty]
  · intro url tmsOpt retry d hurl
    simp [construct, hurl]
  · exact ⟨_, rfl, rfl⟩
  · exact ⟨_, rfl, rfl⟩

/-- C10 (witness): the constructor accepts a concrete non-empty URL. -/
theorem constructor_skips_policy_check_witness :
    ("https://hooks.example.com/x" : String).isEmpty = false ∧
    construct "https://hooks.example.com/x" none .unspecified
        DEFAULT_RETRY_CONFIG =
      .ok { webhookUrl := "https://hooks.example.com/x",
            timeoutMs := DEFAULT_TIMEOUT_MS,
            retryConfig :=
              normalizeRetryConfig .unspecified DEFAULT_RETRY_CONFIG } :=
  ⟨by decide,
    constructor_skips_policy_check.2.1 "https://hooks.example.com/x" none
      .unspecified DEFAULT_RETRY_CONFIG (by decide)⟩

end Text2Slack
